import Mathlib

/-!
Verification of the credential translation and token-minting core of
`vault-k8s-helper` (src/aws.rs, src/gcp.rs, src/error.rs, src/main.rs),
shallowly embedded in Lean 4.

Conventions of the embedding:
* Rust machine integers become `Nat`/`Int` with explicit bounds and
  wrapping (`as i64` is modelled by subtracting `2^64` above `i64::MAX`).
* `chrono` datetimes are modelled by their UTC epoch-second timestamp
  (`Int`).  The documented panicking ranges of `chrono` 0.4
  (`NaiveDateTime::from_timestamp`, `Duration::seconds`,
  `DateTime + Duration`) are modelled by `Option`, with `none` standing
  for a panic; the representable timestamp range of `NaiveDateTime` is
  `[-8334632937600, 8210298412799]` (years `-262144` to `262143`, the
  `i32 >> 13` year range of chrono), and `Duration::seconds` accepts
  offsets of magnitude at most `i64::MAX / 1000 = 9223372036854775`.
* Byte strings (`Vec<u8>`, UTF-8 contents of `String`) are `List (Fin 256)`.
* Fallible Rust functions return `Except`/`Option`.
* External collaborators (the SigV4 presigning primitive, the region
  table of `rusoto_core`, UTF-8 decoding, the filesystem and home
  directory) are taken as explicit function parameters, as the spec
  directs for excluded collaborators.
-/

namespace VaultK8sHelper

deriving instance DecidableEq for Except

/-- The error enumeration of src/error.rs, restricted to the variants the
core logic embedded in this development can produce. -/
inductive VaultError where
  | InvalidVaultPath
  | InvalidAwsRegion
  | ParseIntError
  | IoError
  | Utf8Error
  deriving DecidableEq, Repr

/-- Rust's `str::split(sep)` on a character list: yields the (possibly
empty) runs between separators; the empty input yields one empty segment,
as in Rust. -/
def splitOnChar (sep : Char) : List Char → List (List Char)
  | [] => [[]]
  | c :: cs =>
    if c = sep then [] :: splitOnChar sep cs
    else match splitOnChar sep cs with
      | s :: ss => (c :: s) :: ss
      | [] => [[c]]

/-- Rust's `path.split('/').collect::<Vec<_>>()` for a Lean `String`. -/
def rustSplitSlash (s : String) : List String :=
  (splitOnChar '/' s.data).map String.mk

/-- The path-validation part of `read_aws_credentials` (src/aws.rs lines
30-39): reject unless the split has exactly 3 segments and segment 1 is
the literal `creds`; on success return `(mount_point, role)` = segments
0 and 2, verbatim. -/
def validate_lease_path (path : String) : Except VaultError (String × String) :=
  let path_parts := rustSplitSlash path
  if path_parts.length ≠ 3 then .error .InvalidVaultPath
  else if path_parts[1]! ≠ "creds" then .error .InvalidVaultPath
  else .ok (path_parts[0]!, path_parts[2]!)

/-- `i64::MAX` as a natural number. -/
def i64MaxNat : Nat := 9223372036854775807

/-- `2^64`, the modulus of `u64` arithmetic. -/
def u64Modulus : Nat := 18446744073709551616

/-- The largest epoch second representable by chrono 0.4's
`NaiveDateTime` (`262143-12-31T23:59:59`). -/
def chronoMaxTimestamp : Int := 8210298412799

/-- The smallest epoch second representable by chrono 0.4's
`NaiveDateTime` (`-262144-01-01T00:00:00`). -/
def chronoMinTimestamp : Int := -8334632937600

/-- The proleptic-Gregorian civil date `(year, month, day)` of a day
number counted from 1970-01-01, as computed by chrono's calendar. -/
def civilFromDays (z0 : Int) : Int × Nat × Nat :=
  let z := z0 + 719468
  let era := (if 0 ≤ z then z else z - 146096).ediv 146097
  let doe := (z - era * 146097).toNat
  let yoe := (doe - doe / 1460 + doe / 36524 - doe / 146096) / 365
  let y : Int := (yoe : Int) + era * 400
  let doy := doe - (365 * yoe + yoe / 4 - yoe / 100)
  let mp := (5 * doy + 2) / 153
  let d := doy - (153 * mp + 2) / 5 + 1
  let m := if mp < 10 then mp + 3 else mp - 9
  (if m ≤ 2 then y + 1 else y, m, d)

/-- Two-digit zero padding of a field value. -/
def pad2 (n : Nat) : String := if n < 10 then "0" ++ toString n else toString n

/-- Four-digit zero padding of a year. -/
def pad4 (n : Nat) : String :=
  if n < 10 then "000" ++ toString n
  else if n < 100 then "00" ++ toString n
  else if n < 1000 then "0" ++ toString n
  else toString n

/-- chrono's year formatting in RFC 3339 strings: four zero-padded digits
for years 0-9999 and an explicit sign for expanded years outside that
range, as per ISO 8601. -/
def renderYear (y : Int) : String :=
  if y < 0 then "-" ++ pad4 y.natAbs
  else if y ≤ 9999 then pad4 y.toNat
  else "+" ++ toString y.toNat

/-- chrono's `to_rfc3339_opts(SecondsFormat::Secs, true)` on the UTC
datetime with the given epoch-second timestamp: second precision, `Z`
suffix. -/
def to_rfc3339_secs_z (ts : Int) : String :=
  let days := ts.ediv 86400
  let sod := (ts.emod 86400).toNat
  match civilFromDays days with
  | (y, m, d) =>
    renderYear y ++ "-" ++ pad2 m ++ "-" ++ pad2 d ++ "T" ++
      pad2 (sod / 3600) ++ ":" ++ pad2 (sod % 3600 / 60) ++ ":" ++ pad2 (sod % 60) ++ "Z"

/-- chrono 0.4's `NaiveDateTime::from_timestamp(t, 0)`; `none` models the
documented panic outside the representable year range. -/
def naive_date_time_from_timestamp (t : Int) : Option Int :=
  if chronoMinTimestamp ≤ t ∧ t ≤ chronoMaxTimestamp then some t else none

/-- The two integer shapes a serde deserializer can feed the timestamp
visitor of src/gcp.rs: `visit_i64` with a signed value, or `visit_u64`
with an unsigned value. -/
inductive SerdeInt where
  | i64 (v : Int)
  | u64 (v : Nat)
  deriving DecidableEq

/-- Outcome of deserializing the `expires_at_seconds` wire field:
success with the rendered expiry string, a serde custom error from the
visitor, or a chrono panic in `from_timestamp`. -/
inductive DeserOutcome where
  | ok (s : String)
  | deserError
  | outOfRange
  deriving DecidableEq

/-- `timestamp_to_iso` of src/gcp.rs (lines 34-70): the visitor accepts
`i64` values verbatim and `u64` values only up to `i64::MAX` (larger ones
raise a custom deserialization error), then renders the epoch through
`NaiveDateTime::from_timestamp` and `to_rfc3339_opts(Secs, true)`. -/
def timestamp_to_iso (w : SerdeInt) : DeserOutcome :=
  let visited : Option Int :=
    match w with
    | .i64 v => some v
    | .u64 v => if v ≤ i64MaxNat then some (v : Int) else none
  match visited with
  | none => .deserError
  | some t =>
    match naive_date_time_from_timestamp t with
    | none => .outOfRange
    | some t2 => .ok (to_rfc3339_secs_z t2)

/-- A `gcp_auth::Token`: the SDK bearer token string with its optional
expiry instant (epoch seconds; a chrono `DateTime` in the source). -/
structure GcpAuthToken where
  token : String
  expires_at : Option Int
  deriving DecidableEq

/-- The `GcpAccessToken` struct of src/gcp.rs (lines 10-18). -/
structure GcpAccessToken where
  expiry : String
  token : String
  token_ttl : Nat
  deriving DecidableEq

/-- `GcpAccessToken::from_gcp_auth` (src/gcp.rs lines 21-31), with the
clock `Utc::now()` passed explicitly as the epoch-second `now`: a missing
SDK expiry defaults to `now + 50` minutes, and `token_ttl` is the
absolute value of the signed difference `expiry - now` in whole seconds,
cast to `u64`. -/
def GcpAccessToken.from_gcp_auth (tok : GcpAuthToken) (now : Int) : GcpAccessToken :=
  let expiry := tok.expires_at.getD (now + 50 * 60)
  { token := tok.token
    expiry := to_rfc3339_secs_z expiry
    token_ttl := (expiry - now).natAbs }

/-- A minimal JSON value model, sufficient for the wire documents this
program emits. -/
inductive Json where
  | str (s : String)
  | num (n : Nat)
  | obj (fields : List (String × Json))

/-- serde serialization of `GcpAccessToken` per the attributes of
src/gcp.rs lines 10-18: fields in declaration order, the internal
`expiry` field renamed on serialization to `token_expiry`, and
`token_ttl` omitted entirely (`skip_serializing`). -/
def GcpAccessToken.serialize (g : GcpAccessToken) : List (String × Json) :=
  [("token_expiry", .str g.expiry), ("token", .str g.token)]

/-- Rust's `as i64` cast of a `u64` value `n < 2^64`: values above
`i64::MAX` wrap by subtracting `2^64`. -/
def u64AsI64 (n : Nat) : Int :=
  if n ≤ i64MaxNat then (n : Int) else (n : Int) - u64Modulus

/-- The bound check of chrono 0.4's `Duration::seconds`, which panics for
offsets of magnitude above `i64::MAX / 1000` seconds. -/
def duration_seconds_ok (s : Int) : Bool :=
  -9223372036854775 ≤ s && s ≤ 9223372036854775

/-- Whether a timestamp is representable as a chrono `NaiveDateTime`;
`DateTime<Utc> + Duration` panics when the sum leaves this range. -/
def datetime_in_range (t : Int) : Bool :=
  chronoMinTimestamp ≤ t && t ≤ chronoMaxTimestamp

/-- The expiry derivation of `read_aws_credentials` (src/aws.rs lines
47-51), with `Utc::now()` passed as `now`: when a `security_token` is
present the expiry is `now + Duration::seconds(lease_duration as i64)`,
otherwise `None`.  The outer `Option` is `none` when chrono panics
(`Duration::seconds` bound, or datetime overflow on the addition). -/
def read_aws_credentials_expiry (now : Int) (security_token : Option String)
    (lease_duration : Nat) : Option (Option Int) :=
  if security_token.isSome then
    let offset := u64AsI64 lease_duration
    if duration_seconds_ok offset then
      let expiry := now + offset
      if datetime_in_range expiry then some (some expiry) else none
    else none
  else some none

/-- Character `n` of the URL-safe base64 alphabet (RFC 4648 sect. 5:
`A-Z`, `a-z`, `0-9`, `-`, `_`), as used by the `base64` crate's
`URL_SAFE_NO_PAD` config. -/
def b64UrlChar (n : Nat) : Char :=
  if n < 26 then Char.ofNat (65 + n)
  else if n < 52 then Char.ofNat (97 + (n - 26))
  else if n < 62 then Char.ofNat (48 + (n - 52))
  else if n = 62 then '-'
  else '_'

/-- URL-safe unpadded base64: 3-byte groups become 4 sextet characters;
a trailing group of 1 or 2 bytes becomes 2 or 3 characters with no
padding. -/
def b64UrlNoPad : List (Fin 256) → List Char
  | [] => []
  | [b0] => [b64UrlChar (b0.val / 4), b64UrlChar (b0.val % 4 * 16)]
  | [b0, b1] =>
    [b64UrlChar (b0.val / 4), b64UrlChar (b0.val % 4 * 16 + b1.val / 16),
     b64UrlChar (b1.val % 16 * 4)]
  | b0 :: b1 :: b2 :: rest =>
    b64UrlChar (b0.val / 4) :: b64UrlChar (b0.val % 4 * 16 + b1.val / 16) ::
      b64UrlChar (b1.val % 16 * 4 + b2.val / 64) :: b64UrlChar (b2.val % 64) ::
        b64UrlNoPad rest

/-- `base64::encode_config_buf(bytes, base64::URL_SAFE_NO_PAD, ..)` as a
string. -/
def base64_url_safe_no_pad (bytes : List (Fin 256)) : String := ⟨b64UrlNoPad bytes⟩

/-- Membership test for the URL-safe base64 alphabet. -/
def isB64UrlChar (c : Char) : Bool :=
  ('A' ≤ c && c ≤ 'Z') || ('a' ≤ c && c ≤ 'z') || ('0' ≤ c && c ≤ '9') ||
    c = '-' || c = '_'

/-- `EksCredentialStatus` of src/aws.rs lines 20-23. -/
structure EksCredentialStatus where
  token : String
  deriving DecidableEq

/-- `EksCredential` of src/aws.rs lines 11-18; the `spec` field is the
`HashMap<(), ()>` of the source (whose only JSON-meaningful value is the
empty map, `Default::default()`). -/
structure EksCredential where
  kind : String
  api_version : String
  spec : List (Unit × Unit)
  status : EksCredentialStatus
  deriving DecidableEq

/-- The advisory warnings `generate_presigned_url` can log (src/aws.rs
lines 76-87): the fixed 15-minute validity of the signed
`GetCallerIdentity` request, and the sub-60-second expiry interop
caveat. -/
inductive MintWarning where
  | stsValidityFifteenMinutes
  | expiryUnderSixtySeconds
  deriving DecidableEq

/-- Decimal digit value of a character, if any. -/
def digitVal (c : Char) : Option Nat :=
  if '0' ≤ c ∧ c ≤ '9' then some (c.toNat - 48) else none

/-- Digit-accumulation loop of Rust's `u64::from_str`: fails on a
non-digit and on overflow past `u64::MAX`. -/
def parseDigits (acc : Nat) : List Char → Option Nat
  | [] => some acc
  | c :: cs =>
    match digitVal c with
    | none => none
    | some d =>
      let acc2 := acc * 10 + d
      if acc2 < u64Modulus then parseDigits acc2 cs else none

/-- Rust's `str::parse::<u64>()`: an optional leading `+`, then one or
more decimal digits, with the value below `2^64`. -/
def parse_u64 (s : String) : Option Nat :=
  match s.data with
  | [] => none
  | ['+'] => none
  | '+' :: rest => parseDigits 0 rest
  | l => parseDigits 0 l

/-- `generate_presigned_url` (src/aws.rs lines 61-96), parameterised over
the rusoto region table (`parse_region`) and the SigV4 presigning
primitive (`presign`), both external collaborators the spec treats as
black boxes (`presign` total).  Returns the warnings logged together with
the result; a URL is a byte string.  The region string is parsed first
(failure = `InvalidAwsRegion`), then the expiry string as a `u64`
(failure = `ParseIntError`); the warnings are advisory only. -/
def generate_presigned_url {Region Credentials : Type}
    (parse_region : String → Option Region)
    (presign : Credentials → Option Region → List (String × String) → Option Nat →
      List (Fin 256))
    (credentials : Credentials) (cluster : String)
    (region : Option String) (expires_in : Option String) :
    List MintWarning × Except VaultError (List (Fin 256)) :=
  let regionStep : Except VaultError (Option Region) :=
    match region with
    | some r =>
      match parse_region r with
      | some reg => .ok (some reg)
      | none => .error .InvalidAwsRegion
    | none => .ok none
  match regionStep with
  | .error e => ([], .error e)
  | .ok reg =>
    let expiryStep : Except VaultError (Option Nat) :=
      match expires_in with
      | some s =>
        match parse_u64 s with
        | some n => .ok (some n)
        | none => .error .ParseIntError
      | none => .ok none
    match expiryStep with
    | .error e => ([], .error e)
    | .ok expiry =>
      let warnings : List MintWarning :=
        match expiry with
        | some duration =>
          if duration < 60 then [.stsValidityFifteenMinutes, .expiryUnderSixtySeconds]
          else [.stsValidityFifteenMinutes]
        | none => []
      (warnings, .ok (presign credentials reg [("x-k8s-aws-id", cluster)] expiry))

/-- `get_eks_token` (src/aws.rs lines 98-116): presign, then build the
fixed exec-credential envelope whose token is the literal `k8s-aws-v1.`
followed by the URL-safe unpadded base64 of the presigned URL. -/
def get_eks_token {Region Credentials : Type}
    (parse_region : String → Option Region)
    (presign : Credentials → Option Region → List (String × String) → Option Nat →
      List (Fin 256))
    (credentials : Credentials) (cluster : String)
    (region : Option String) (expires_in : Option String) :
    List MintWarning × Except VaultError EksCredential :=
  match generate_presigned_url parse_region presign credentials cluster region expires_in with
  | (w, .error e) => (w, .error e)
  | (w, .ok url) =>
    (w, .ok
      { kind := "ExecCredential"
        api_version := "client.authentication.k8s.io/v1alpha1"
        spec := []
        status := { token := "k8s-aws-v1." ++ base64_url_safe_no_pad url } })

/-- serde serialization of `EksCredential` (src/aws.rs lines 11-23):
fields in declaration order, `api_version` renamed to `apiVersion`, the
(empty) `spec` map as an empty object, the status as a nested object. -/
def EksCredential.serialize (c : EksCredential) : Json :=
  .obj [("kind", .str c.kind), ("apiVersion", .str c.api_version),
        ("spec", .obj []), ("status", .obj [("token", .str c.status.token)])]

/-- serde deserialization of `EksCredential` from a JSON value: all four
fields are required, looked up by their (renamed) public keys; the
unit-keyed `spec` map accepts an object and carries no data. -/
def EksCredential.deserialize (j : Json) : Option EksCredential :=
  match j with
  | .obj fields =>
    match fields.lookup "kind", fields.lookup "apiVersion",
        fields.lookup "spec", fields.lookup "status" with
    | some (.str kind), some (.str apiv), some (.obj _), some (.obj st) =>
      match st.lookup "token" with
      | some (.str tok) =>
        some { kind := kind, api_version := apiv, spec := [],
               status := { token := tok } }
      | _ => none
    | _, _, _, _ => none
  | _ => none

/-- `read_file` of src/main.rs (lines 40-42) over an abstract filesystem
`fs` mapping paths to byte contents, `none` meaning any I/O failure. -/
def read_file (fs : String → Option (List (Fin 256))) (path : String) :
    Except VaultError (List (Fin 256)) :=
  match fs path with
  | some bytes => .ok bytes
  | none => .error .IoError

/-- `read_token` of src/main.rs (lines 176-180): read the file, then
decode it as UTF-8 (`utf8` is the abstract `String::from_utf8`, `none`
meaning invalid UTF-8). -/
def read_token (fs : String → Option (List (Fin 256)))
    (utf8 : List (Fin 256) → Option String) (path : String) :
    Except VaultError String :=
  match read_file fs path with
  | .error e => .error e
  | .ok bytes =>
    match utf8 bytes with
    | some s => .ok s
    | none => .error .Utf8Error

/-- `token_helper` of src/main.rs (lines 182-194): read
`~/.vault-token` under the home directory, if any, discarding any read
or decode error (`.ok()`). -/
def token_helper (fs : String → Option (List (Fin 256)))
    (utf8 : List (Fin 256) → Option String) (home_dir : Option String) :
    Option String :=
  (home_dir.map (fun p => p ++ "/.vault-token")).bind
    (fun p => (read_token fs utf8 p).toOption)

/-- The token-selection logic of `get_vault_client` (src/main.rs lines
196-202): an explicit `--vault-token-file` is read (errors propagate);
otherwise the home-directory helper token, falling back to the
`--vault-token` argument. -/
def get_vault_client_token (fs : String → Option (List (Fin 256)))
    (utf8 : List (Fin 256) → Option String) (home_dir : Option String)
    (vault_token_file vault_token : Option String) :
    Except VaultError (Option String) :=
  match vault_token_file with
  | some path =>
    match read_token fs utf8 path with
    | .error e => .error e
    | .ok t => .ok (some t)
  | none => .ok ((token_helper fs utf8 home_dir).orElse (fun _ => vault_token))

/-! ## Theorems -/

/-- Sanity: the lease-path scenario of spec section 8. -/
theorem validate_lease_path_scenario :
    validate_lease_path "aws/creds/deploy-role" = .ok ("aws", "deploy-role") ∧
    validate_lease_path "aws/deploy-role" = .error .InvalidVaultPath ∧
    validate_lease_path "aws/token/deploy-role" = .error .InvalidVaultPath := by
  refine ⟨?_, ?_, ?_⟩ <;> decide

/-- C1 (amended): lease-path validation succeeds with `(m, r)` exactly
when the path splits on `/` into the three segments `[m, "creds", r]` —
the outer segments may be empty, since the source checks only the
segment count and the middle literal — and every rejection carries the
`InvalidVaultPath` error; on success, segment 0 is the mount point and
segment 2 the role, verbatim, with no trimming or case-folding. -/
theorem C1_lease_path_validation (p m r : String) :
    (validate_lease_path p = .ok (m, r) ↔ rustSplitSlash p = [m, "creds", r]) ∧
    (validate_lease_path p = .error .InvalidVaultPath ∨
      ∃ m0 r0, validate_lease_path p = .ok (m0, r0)) := by
  have core : ∀ l : List String,
      ((if l.length ≠ 3 then (.error .InvalidVaultPath : Except VaultError (String × String))
        else if l[1]! ≠ "creds" then .error .InvalidVaultPath
        else .ok (l[0]!, l[2]!)) = .ok (m, r) ↔ l = [m, "creds", r]) ∧
      ((if l.length ≠ 3 then (.error .InvalidVaultPath : Except VaultError (String × String))
        else if l[1]! ≠ "creds" then .error .InvalidVaultPath
        else .ok (l[0]!, l[2]!)) = .error .InvalidVaultPath ∨
       ∃ m0 r0, (if l.length ≠ 3 then
          (.error .InvalidVaultPath : Except VaultError (String × String))
        else if l[1]! ≠ "creds" then .error .InvalidVaultPath
        else .ok (l[0]!, l[2]!)) = .ok (m0, r0)) := by
    intro l
    match l with
    | [] => simp
    | [a] => simp
    | [a, b] => simp
    | [a, b, c] => by_cases hb : b = "creds" <;> simp [hb]
    | a :: b :: c :: d :: tl => simp
  have h : validate_lease_path p =
      (if (rustSplitSlash p).length ≠ 3 then .error .InvalidVaultPath
       else if (rustSplitSlash p)[1]! ≠ "creds" then .error .InvalidVaultPath
       else .ok ((rustSplitSlash p)[0]!, (rustSplitSlash p)[2]!)) := rfl
  rw [h]
  exact core (rustSplitSlash p)

/-- C1 counterexample to the claim as stated: the path `"/creds/"`
splits into three segments of which segments 0 and 2 are empty, yet
validation succeeds (returning empty mount point and role) instead of
rejecting with `InvalidVaultPath` as the claim requires for inputs with
an empty segment. -/
theorem C1_empty_segment_accepted :
    rustSplitSlash "/creds/" = ["", "creds", ""] ∧
    validate_lease_path "/creds/" = .ok ("", "") := by
  constructor <;> decide

/-- Sanity: the Unix epoch renders as expected. -/
theorem rfc3339_epoch : to_rfc3339_secs_z 0 = "1970-01-01T00:00:00Z" := by decide

/-- Sanity: a modern timestamp renders as expected. -/
theorem rfc3339_sample : to_rfc3339_secs_z 1760227200 = "2025-10-12T00:00:00Z" := by decide

/-- Sanity: the last chrono-representable second renders as the expanded
ISO 8601 year `+262143`. -/
theorem rfc3339_chrono_max :
    to_rfc3339_secs_z chronoMaxTimestamp = "+262143-12-31T23:59:59Z" := by decide

/-- C2 counterexample to the claim as stated: the epoch `i64::MAX`,
although inside `[0, i64::MAX]`, is not converted to an RFC 3339 string;
`NaiveDateTime::from_timestamp` panics on it (chrono's year range ends at
262143, epoch second 8210298412799). -/
theorem C2_i64_max_not_rendered :
    timestamp_to_iso (.i64 9223372036854775807) = .outOfRange := by decide

/-- C2 (amended): for every epoch `t` in `[0, 8210298412799]` (the
chrono-representable part of `[0, i64::MAX]`) the broker-issued GCP
deserialization renders `t` as the RFC 3339 / UTC / second-precision
expiry string; epochs above that bound (up to `i64::MAX`) make
`from_timestamp` panic; a `u64` wire value above `i64::MAX` is rejected
with a deserialization error, while `u64` values at or below `i64::MAX`
are treated exactly as the signed value. -/
theorem C2_epoch_deserialization (t u v : Nat) (ht : t ≤ 8210298412799) :
    timestamp_to_iso (.i64 t) = .ok (to_rfc3339_secs_z t) ∧
    (8210298412799 < u → u ≤ i64MaxNat → timestamp_to_iso (.i64 u) = .outOfRange) ∧
    (v ≤ i64MaxNat → timestamp_to_iso (.u64 v) = timestamp_to_iso (.i64 v)) ∧
    (i64MaxNat < v → timestamp_to_iso (.u64 v) = .deserError) := by
  refine ⟨?_, ?_, ?_, ?_⟩
  · have hin : chronoMinTimestamp ≤ (t : Int) ∧ (t : Int) ≤ chronoMaxTimestamp := by
      unfold chronoMinTimestamp chronoMaxTimestamp
      constructor <;> omega
    unfold timestamp_to_iso
    simp [naive_date_time_from_timestamp, hin]
  · intro h1 h2
    have hout : ¬ (chronoMinTimestamp ≤ (u : Int) ∧ (u : Int) ≤ chronoMaxTimestamp) := by
      unfold chronoMinTimestamp chronoMaxTimestamp
      omega
    unfold timestamp_to_iso
    simp [naive_date_time_from_timestamp, hout]
  · intro h
    unfold timestamp_to_iso
    simp [h]
  · intro h
    unfold timestamp_to_iso
    simp [Nat.not_le.mpr h]

/-- C2 witness: the amended theorem applied at `2025-10-12T00:00:00Z`,
at the first panicking epoch, and at `2^63` on the unsigned side. -/
theorem C2_epoch_deserialization_witness :
    timestamp_to_iso (.i64 1760227200) = .ok (to_rfc3339_secs_z 1760227200) ∧
    timestamp_to_iso (.i64 8210298412800) = .outOfRange ∧
    timestamp_to_iso (.u64 1760227200) = timestamp_to_iso (.i64 1760227200) ∧
    timestamp_to_iso (.u64 9223372036854775808) = .deserError :=
  ⟨(C2_epoch_deserialization 1760227200 8210298412800 9223372036854775808 (by decide)).1,
   (C2_epoch_deserialization 1760227200 8210298412800 9223372036854775808 (by decide)).2.1
     (by decide) (by decide),
   (C2_epoch_deserialization 1760227200 8210298412800 1760227200 (by decide)).2.2.1
     (by decide),
   (C2_epoch_deserialization 1760227200 8210298412800 9223372036854775808 (by decide)).2.2.2
     (by decide)⟩

/-- C5: on the SDK-issued GCP path, a token without an expiry gets
`now + 50` minutes (rendered RFC 3339, second precision, UTC) and in all
cases `token_ttl` is the absolute difference between the expiry instant
and `now` in whole seconds — a well-defined `u64` even when the expiry
lies in the past. -/
theorem C5_sdk_token_normalization (s : String) (e now : Int) (tok : GcpAuthToken) :
    (GcpAccessToken.from_gcp_auth ⟨s, none⟩ now).expiry
      = to_rfc3339_secs_z (now + 50 * 60) ∧
    (GcpAccessToken.from_gcp_auth ⟨s, none⟩ now).token_ttl = 3000 ∧
    (GcpAccessToken.from_gcp_auth tok now).token_ttl
      = (tok.expires_at.getD (now + 50 * 60) - now).natAbs ∧
    (GcpAccessToken.from_gcp_auth ⟨s, some e⟩ now).token_ttl = (e - now).natAbs ∧
    (GcpAccessToken.from_gcp_auth ⟨s, some (now - 77)⟩ now).token_ttl = 77 := by
  refine ⟨rfl, ?_, rfl, rfl, ?_⟩
  · show (now + 50 * 60 - now).natAbs = 3000
    omega
  · show (now - 77 - now).natAbs = 77
    omega

/-- C6: serializing a `GcpAccessToken` emits exactly the keys
`token_expiry` (carrying the internal expiry field) and `token`, in that
order; neither `token_ttl` nor the internal field name `expiry` ever
appears. -/
theorem C6_gcp_serialization_keys (g : GcpAccessToken) :
    g.serialize.map Prod.fst = ["token_expiry", "token"] ∧
    g.serialize.lookup "token_expiry" = some (.str g.expiry) ∧
    g.serialize.lookup "token" = some (.str g.token) ∧
    g.serialize.lookup "token_ttl" = none ∧
    g.serialize.lookup "expiry" = none := by
  refine ⟨rfl, ?_, ?_, ?_, ?_⟩ <;> simp [GcpAccessToken.serialize, List.lookup]

/-- C4 counterexample to the claim as stated: for an STS lease with
`lease_duration = 2^64 - 1` the derivation completes and yields
`now - 1`, not `now + lease_duration`: the `as i64` cast wraps. -/
theorem C4_wrapped_expiry :
    read_aws_credentials_expiry 1760227200 (some "tok") 18446744073709551615
      = some (some 1760227199) ∧
    (1760227199 : Int) ≠ 1760227200 + (18446744073709551615 : Nat) := by
  constructor <;> decide

/-- C4 (amended): whenever the expiry derivation completes, the derived
expiry is `Some` exactly when the lease's `security_token` is `Some`
(long-lived credentials never expire); when present it equals
`now + (lease_duration as i64)` — which is `now + lease_duration`
whenever `lease_duration ≤ i64::MAX`, the cast wrapping only above
that. -/
theorem C4_lease_expiry (now : Int) (st : Option String) (d : Nat) (res : Option Int)
    (h : read_aws_credentials_expiry now st d = some res) :
    (res.isSome ↔ st.isSome) ∧
    (st.isSome → res = some (now + u64AsI64 d)) ∧
    (d ≤ i64MaxNat → st.isSome → res = some (now + d)) := by
  cases st with
  | none =>
    unfold read_aws_credentials_expiry at h
    simp at h
    subst h
    simp
  | some tok =>
    unfold read_aws_credentials_expiry at h
    simp at h
    obtain ⟨hdur, hrange, hres⟩ := h
    subst hres
    refine ⟨by simp, fun _ => rfl, fun hd _ => ?_⟩
    simp [u64AsI64, hd]

/-- C4 witness: the amended theorem applied to the spec's own scenario
(`security_token = Some "tok"`, `lease_duration = 900`, `now = 0`). -/
theorem C4_lease_expiry_witness :
    ((some (900 : Int)).isSome ↔ (some "tok" : Option String).isSome) ∧
    some (900 : Int) = some ((0 : Int) + u64AsI64 900) ∧
    some (900 : Int) = some ((0 : Int) + (900 : Nat)) :=
  ⟨(C4_lease_expiry 0 (some "tok") 900 (some 900) (by decide)).1,
   (C4_lease_expiry 0 (some "tok") 900 (some 900) (by decide)).2.1 (by decide),
   (C4_lease_expiry 0 (some "tok") 900 (some 900) (by decide)).2.2 (by decide) (by decide)⟩

/-- C10 counterexample to the claim as stated: at
`lease_duration = 2^63` the wrapped offset is `-2^63`, far below the
`chrono::Duration::seconds` bound, so the code panics instead of deriving
an expiry that precedes the current time. -/
theorem C10_duration_seconds_out_of_bounds :
    read_aws_credentials_expiry 1760227200 (some "tok") 9223372036854775808 = none ∧
    u64AsI64 9223372036854775808 = -9223372036854775808 := by
  constructor <;> decide

/-- C10 (amended): for every `lease_duration` above `i64::MAX` the
unchecked cast wraps modulo `2^64` to the negative offset
`lease_duration - 2^64`; whenever the derivation then completes at all
(i.e. chrono does not panic on the out-of-bounds offset), the derived
expiry strictly precedes the current time. -/
theorem C10_lease_duration_wrap (now : Int) (d : Nat)
    (h1 : i64MaxNat < d) (h2 : d < u64Modulus) :
    u64AsI64 d = (d : Int) - u64Modulus ∧
    u64AsI64 d < 0 ∧
    (∀ st res, read_aws_credentials_expiry now st d = some (some res) → res < now) := by
  have hwrap : u64AsI64 d = (d : Int) - u64Modulus := by
    unfold u64AsI64
    rw [if_neg (Nat.not_le.mpr h1)]
  have hneg : u64AsI64 d < 0 := by
    rw [hwrap]
    unfold u64Modulus at h2 ⊢
    omega
  refine ⟨hwrap, hneg, fun st res h => ?_⟩
  cases st with
  | none =>
    unfold read_aws_credentials_expiry at h
    simp at h
  | some tok =>
    unfold read_aws_credentials_expiry at h
    simp at h
    obtain ⟨hdur, hrange, hres⟩ := h
    omega

/-- C10 witness: the amended theorem applied at
`lease_duration = 2^64 - 1` and `now = 1760227200`, where the derivation
completes and the expiry `now - 1` indeed precedes `now`. -/
theorem C10_lease_duration_wrap_witness :
    u64AsI64 18446744073709551615 = (18446744073709551615 : Nat) - (u64Modulus : Int) ∧
    u64AsI64 18446744073709551615 < 0 ∧
    (1760227199 : Int) < 1760227200 :=
  ⟨(C10_lease_duration_wrap 1760227200 18446744073709551615 (by decide) (by decide)).1,
   (C10_lease_duration_wrap 1760227200 18446744073709551615 (by decide) (by decide)).2.1,
   (C10_lease_duration_wrap 1760227200 18446744073709551615 (by decide) (by decide)).2.2
     (some "tok") 1760227199 (by decide)⟩


theorem b64UrlChar_valid (n : Nat) (h : n < 64) : isB64UrlChar (b64UrlChar n) = true := by
  interval_cases n <;> decide

theorem b64UrlNoPad_valid :
    ∀ (bytes : List (Fin 256)) (c : Char), c ∈ b64UrlNoPad bytes → isB64UrlChar c = true
  | [], c, hc => by simp [b64UrlNoPad] at hc
  | [b0], c, hc => by
    have hb0 := b0.isLt
    simp [b64UrlNoPad] at hc
    rcases hc with h | h <;> subst h <;> exact b64UrlChar_valid _ (by omega)
  | [b0, b1], c, hc => by
    have hb0 := b0.isLt
    have hb1 := b1.isLt
    simp [b64UrlNoPad] at hc
    rcases hc with h | h | h <;> subst h <;> exact b64UrlChar_valid _ (by omega)
  | b0 :: b1 :: b2 :: rest, c, hc => by
    have hb0 := b0.isLt
    have hb1 := b1.isLt
    have hb2 := b2.isLt
    simp [b64UrlNoPad] at hc
    rcases hc with h | h | h | h | h
    · subst h; exact b64UrlChar_valid _ (by omega)
    · subst h; exact b64UrlChar_valid _ (by omega)
    · subst h; exact b64UrlChar_valid _ (by omega)
    · subst h; exact b64UrlChar_valid _ (by omega)
    · exact b64UrlNoPad_valid rest c h

theorem C3_eks_token_shape {Region Credentials : Type}
    (parse_region : String → Option Region)
    (presign : Credentials → Option Region → List (String × String) → Option Nat →
      List (Fin 256))
    (credentials : Credentials) (cluster : String)
    (region expires_in : Option String) (w : List MintWarning) (cred : EksCredential)
    (h : get_eks_token parse_region presign credentials cluster region expires_in
      = (w, .ok cred)) :
    cred.kind = "ExecCredential" ∧
    cred.api_version = "client.authentication.k8s.io/v1alpha1" ∧
    cred.spec = [] ∧
    ∃ url,
      (generate_presigned_url parse_region presign credentials cluster region
          expires_in).2 = .ok url ∧
      cred.status.token = "k8s-aws-v1." ++ base64_url_safe_no_pad url ∧
      ∀ c ∈ (base64_url_safe_no_pad url).data, isB64UrlChar c = true := by
  unfold get_eks_token at h
  rcases hg : generate_presigned_url parse_region presign credentials cluster region
      expires_in with ⟨w2, res⟩
  rw [hg] at h
  cases res with
  | error e => simp at h
  | ok url =>
    simp at h
    obtain ⟨hw, hcred⟩ := h
    subst hcred
    refine ⟨rfl, rfl, rfl, url, by simp [hg], rfl, fun c hc => ?_⟩
    exact b64UrlNoPad_valid url c hc

theorem C3_eks_token_shape_witness :
    (EksCredential.mk "ExecCredential" "client.authentication.k8s.io/v1alpha1" []
        (EksCredentialStatus.mk "k8s-aws-v1.R0VU")).kind = "ExecCredential" ∧
    (EksCredential.mk "ExecCredential" "client.authentication.k8s.io/v1alpha1" []
        (EksCredentialStatus.mk "k8s-aws-v1.R0VU")).api_version
      = "client.authentication.k8s.io/v1alpha1" :=
  ⟨(C3_eks_token_shape (fun _ : String => (none : Option Unit))
      (fun _ _ _ _ => ([71, 69, 84] : List (Fin 256))) () "demo" none none []
      (EksCredential.mk "ExecCredential" "client.authentication.k8s.io/v1alpha1" []
        (EksCredentialStatus.mk "k8s-aws-v1.R0VU")) (by decide)).1,
   (C3_eks_token_shape (fun _ : String => (none : Option Unit))
      (fun _ _ _ _ => ([71, 69, 84] : List (Fin 256))) () "demo" none none []
      (EksCredential.mk "ExecCredential" "client.authentication.k8s.io/v1alpha1" []
        (EksCredentialStatus.mk "k8s-aws-v1.R0VU")) (by decide)).2.1⟩


theorem C7_minting_errors {Region Credentials : Type}
    (parse_region : String → Option Region)
    (presign : Credentials → Option Region → List (String × String) → Option Nat →
      List (Fin 256))
    (credentials : Credentials) (cluster : String) (region expires_in : Option String) :
    (∀ s, region = some s → parse_region s = none →
      generate_presigned_url parse_region presign credentials cluster region expires_in
        = ([], .error .InvalidAwsRegion)) ∧
    (∀ s, expires_in = some s → parse_u64 s = none →
      (region = none ∨ ∃ t reg, region = some t ∧ parse_region t = some reg) →
      generate_presigned_url parse_region presign credentials cluster region expires_in
        = ([], .error .ParseIntError)) ∧
    (∀ e, (generate_presigned_url parse_region presign credentials cluster region
        expires_in).2 = .error e →
      (∃ s, region = some s ∧ parse_region s = none) ∨
      (∃ s, expires_in = some s ∧ parse_u64 s = none)) ∧
    (∀ s d, expires_in = some s → parse_u64 s = some d → region = none →
      generate_presigned_url parse_region presign credentials cluster region expires_in
        = ((if d < 60 then [.stsValidityFifteenMinutes, .expiryUnderSixtySeconds]
            else [.stsValidityFifteenMinutes]),
           .ok (presign credentials none [("x-k8s-aws-id", cluster)] (some d)))) := by
  refine ⟨?_, ?_, ?_, ?_⟩
  · intro s hs hp
    subst hs
    simp [generate_presigned_url, hp]
  · intro s hs hp hr
    subst hs
    rcases hr with hr | ⟨t, reg, ht, hpr⟩
    · subst hr
      simp [generate_presigned_url, hp]
    · subst ht
      simp [generate_presigned_url, hpr, hp]
  · intro e he
    cases hr : region with
    | none =>
      cases hx : expires_in with
      | none => simp [generate_presigned_url, hr, hx] at he
      | some s =>
        cases hp : parse_u64 s with
        | none => exact Or.inr ⟨s, rfl, hp⟩
        | some n => simp [generate_presigned_url, hr, hx, hp] at he
    | some t =>
      cases hpt : parse_region t with
      | none => exact Or.inl ⟨t, rfl, hpt⟩
      | some reg =>
        cases hx : expires_in with
        | none => simp [generate_presigned_url, hr, hx, hpt] at he
        | some s =>
          cases hp : parse_u64 s with
          | none => exact Or.inr ⟨s, rfl, hp⟩
          | some n => simp [generate_presigned_url, hr, hx, hpt, hp] at he
  · intro s d hs hd hr
    subst hs
    subst hr
    simp [generate_presigned_url, hd]

theorem C7_minting_errors_witness :
    generate_presigned_url (fun r : String => if r = "us-east-1" then some r else none)
        (fun _ _ _ _ => ([71] : List (Fin 256))) () "demo" (some "mars") none
      = ([], .error .InvalidAwsRegion) ∧
    generate_presigned_url (fun r : String => if r = "us-east-1" then some r else none)
        (fun _ _ _ _ => ([71] : List (Fin 256))) () "demo" none (some "abc")
      = ([], .error .ParseIntError) ∧
    generate_presigned_url (fun r : String => if r = "us-east-1" then some r else none)
        (fun _ _ _ _ => ([71] : List (Fin 256))) () "demo" none (some "30")
      = ([.stsValidityFifteenMinutes, .expiryUnderSixtySeconds], .ok [71]) :=
  ⟨(C7_minting_errors (fun r : String => if r = "us-east-1" then some r else none)
      (fun _ _ _ _ => ([71] : List (Fin 256))) () "demo" (some "mars") none).1
      "mars" rfl (by decide),
   (C7_minting_errors (fun r : String => if r = "us-east-1" then some r else none)
      (fun _ _ _ _ => ([71] : List (Fin 256))) () "demo" none (some "abc")).2.1
      "abc" rfl (by decide) (Or.inl rfl),
   by
    have h := (C7_minting_errors (fun r : String => if r = "us-east-1" then some r else none)
      (fun _ _ _ _ => ([71] : List (Fin 256))) () "demo" none (some "30")).2.2.2
      "30" 30 rfl (by decide) rfl
    simpa using h⟩

theorem C8_eks_roundtrip (c : EksCredential) :
    ∃ c2, EksCredential.deserialize (EksCredential.serialize c) = some c2 ∧
      c2.kind = c.kind ∧ c2.api_version = c.api_version ∧
      c2.status.token = c.status.token := by
  refine ⟨⟨c.kind, c.api_version, [], ⟨c.status.token⟩⟩, ?_, rfl, rfl, rfl⟩
  rfl

theorem C9_token_precedence (fs : String → Option (List (Fin 256)))
    (utf8 : List (Fin 256) → Option String) (home_dir : Option String)
    (vault_token_file vault_token : Option String) :
    (∀ t, vault_token_file = none → token_helper fs utf8 home_dir = some t →
      get_vault_client_token fs utf8 home_dir vault_token_file vault_token
        = .ok (some t)) ∧
    (vault_token_file = none → token_helper fs utf8 home_dir = none →
      get_vault_client_token fs utf8 home_dir vault_token_file vault_token
        = .ok vault_token) ∧
    (∀ p, vault_token_file = some p →
      get_vault_client_token fs utf8 home_dir vault_token_file vault_token
        = (read_token fs utf8 p).map some) := by
  refine ⟨?_, ?_, ?_⟩
  · intro t hf hh
    subst hf
    simp [get_vault_client_token, hh, Option.orElse]
  · intro hf hh
    subst hf
    simp [get_vault_client_token, hh, Option.orElse]
  · intro p hf
    subst hf
    simp only [get_vault_client_token]
    cases hr : read_token fs utf8 p <;> simp [Except.map]

theorem C9_token_precedence_witness :
    get_vault_client_token
        (fun p => if p = "/home/user/.vault-token" then some [97] else none)
        (fun bs => if bs = [97] then some "helper-token" else none)
        (some "/home/user") none (some "cli-token")
      = .ok (some "helper-token") ∧
    get_vault_client_token
        (fun p => if p = "/home/user/.vault-token" then some [97] else none)
        (fun bs => if bs = [97] then some "helper-token" else none)
        none none (some "cli-token")
      = .ok (some "cli-token") ∧
    get_vault_client_token
        (fun p => if p = "/home/user/.vault-token" then some [97] else none)
        (fun bs => if bs = [97] then some "helper-token" else none)
        (some "/home/user") (some "/etc/token-file") (some "cli-token")
      = (read_token (fun p => if p = "/home/user/.vault-token" then some [97] else none)
          (fun bs => if bs = [97] then some "helper-token" else none)
          "/etc/token-file").map some :=
  ⟨(C9_token_precedence
      (fun p => if p = "/home/user/.vault-token" then some [97] else none)
      (fun bs => if bs = [97] then some "helper-token" else none)
      (some "/home/user") none (some "cli-token")).1 "helper-token" rfl (by decide),
   (C9_token_precedence
      (fun p => if p = "/home/user/.vault-token" then some [97] else none)
      (fun bs => if bs = [97] then some "helper-token" else none)
      none none (some "cli-token")).2.1 rfl (by decide),
   (C9_token_precedence
      (fun p => if p = "/home/user/.vault-token" then some [97] else none)
      (fun bs => if bs = [97] then some "helper-token" else none)
      (some "/home/user") (some "/etc/token-file") (some "cli-token")).2.2
      "/etc/token-file" rfl⟩

end VaultK8sHelper
